import Mathlib

/-!
Shallow embedding of the Discovery-Deduplication-Ranking-Extraction pipeline
(src/models.py, src/collector.py, src/curator.py, src/reader.py) and proofs
of the specification claims about it.

Conventions of the embedding:
* Python strings are Lean String (operated on mostly through their char lists);
  str.lower, substring membership, str.strip and str.split are modelled by the
  explicit functions below, faithful on the inputs the pipeline handles.
* datetimes are integral Unix timestamps in seconds (Option Int when nullable);
  Python float scores are exact rationals.
* Python sets of strings are lists with membership semantics (set.add inserts
  only when absent), so that every definition stays executable and decidable.
* fallible calls (HTTP fetch, file writes) are values of Except String.
-/

/-- Models Python str.lower for one character on the ASCII range (all
configuration patterns and item text handled by the pipeline are ASCII). -/
def pyLowerChar (c : Char) : Char :=
  if 65 ≤ c.toNat ∧ c.toNat ≤ 90 then Char.ofNat (c.toNat + 32) else c

/-- Models Python str.lower on a string given as its character list. -/
def pyLower (l : List Char) : List Char := l.map pyLowerChar

/-- Helper for substring search: whether the first list is a prefix of the
second (Boolean, by character equality). -/
def isPrefixL : List Char → List Char → Bool
  | [], _ => true
  | _ :: _, [] => false
  | a :: as, b :: bs => a == b && isPrefixL as bs

/-- Models the Python substring test (needle in haystack) on character lists:
true iff needle occurs contiguously in haystack (the empty needle occurs in
every string, as in Python). -/
def containsSub (needle : List Char) : List Char → Bool
  | [] => isPrefixL needle []
  | h :: hs => isPrefixL needle (h :: hs) || containsSub needle hs

/-- Models Python str.strip(c) for a single strip character: removes every
leading and trailing occurrence of c. -/
def pyStripChar (c : Char) (l : List Char) : List Char :=
  ((l.dropWhile (· == c)).reverse.dropWhile (· == c)).reverse

/-- Models Python str.strip() (no arguments): removes leading and trailing
whitespace characters. -/
def pyStripWs (l : List Char) : List Char :=
  ((l.dropWhile Char.isWhitespace).reverse.dropWhile Char.isWhitespace).reverse

/-- Helper for pyWordCount: counts maximal nonblank runs; the flag records
whether the previous character was part of a word. -/
def pyWordCountAux : Bool → List Char → Nat
  | _, [] => 0
  | inWord, c :: rest =>
    if c.isWhitespace then pyWordCountAux false rest
    else (if inWord then 0 else 1) + pyWordCountAux true rest

/-- Models len(s.split()) in Python: the number of whitespace-separated words
of s (leading/trailing/repeated whitespace contributes no empty words). -/
def pyWordCount (s : String) : Nat := pyWordCountAux false s.data

/-- models.py SourceType: type of a news source. -/
inductive SourceType where
  | rss
  | api
  | scrape
deriving DecidableEq

/-- models.py Source: configuration for a news source. -/
structure Source where
  name : String
  type : SourceType
  url : String
  tags : List String
  priority : Nat
  enabled : Bool
deriving DecidableEq

/-- models.py ItemStatus: status of an item in the pipeline. -/
inductive ItemStatus where
  | pending
  | selected
  | extracted
  | extract_failed
  | synthesized
deriving DecidableEq

/-- models.py Item: a discovered news item. published_at is a nullable Unix
timestamp in seconds. -/
structure Item where
  id : String
  title : String
  url : String
  published_at : Option Int
  source : String
  snippet : String
  tags : List String
  group : String
  status : ItemStatus
deriving DecidableEq

/-- models.py PipelineState: persistent state for the pipeline. The Python
set of processed URLs is modelled as a list with membership semantics. -/
structure PipelineState where
  last_run : Option Int
  processed_urls : List String
  processed_dates : List String
deriving DecidableEq

/-- models.py PipelineState.add_url: mark a URL as processed (set insertion:
a URL already present is not added again). -/
def PipelineState.add_url (st : PipelineState) (url : String) : PipelineState :=
  if url ∈ st.processed_urls then st
  else { st with processed_urls := url :: st.processed_urls }

/-- models.py PipelineState.is_processed: check if a URL has been processed. -/
def PipelineState.is_processed (st : PipelineState) (url : String) : Bool :=
  decide (url ∈ st.processed_urls)

/-- models.py CurationConfig: configuration for content curation. -/
structure CurationConfig where
  top_per_group : Nat
  allowlist : List String
  denylist : List String
  min_title_length : Nat
  max_age_days : Nat
deriving DecidableEq

namespace Collector

/-- The durable shape written by Collector.save_state and read back by
Collector._load_state: the PipelineState with processed_urls serialized as an
ordered list (json.dumps of the model dump). -/
structure SavedState where
  last_run : Option Int
  processed_urls : List String
  processed_dates : List String
deriving DecidableEq

/-- collector.py Collector.save_state: serialize the state, converting the
processed-URL set to an ordered list. -/
def save_state (st : PipelineState) : SavedState :=
  { last_run := st.last_run
    processed_urls := st.processed_urls
    processed_dates := st.processed_dates }

/-- collector.py Collector._load_state: load pipeline state from disk. A
missing or unreadable file (modelled by none) yields a fresh empty state;
otherwise the serialized processed_urls list is converted back to a set
(modelled by deduplicating the list). -/
def load_state (data : Option SavedState) : PipelineState :=
  match data with
  | none => { last_run := none, processed_urls := [], processed_dates := [] }
  | some d =>
    { last_run := d.last_run
      processed_urls := d.processed_urls.dedup
      processed_dates := d.processed_dates }

/-- collector.py Collector.mark_processed: add every item URL to the state
and stamp the run time. -/
def mark_processed (st : PipelineState) (now : Int) (items : List Item) :
    PipelineState :=
  let st1 := items.foldl (fun s i => s.add_url i.url) st
  { st1 with last_run := some now }

/-- Helper for Collector._deduplicate: the loop with its seen set (the set is
modelled as the list of identifiers inserted so far). -/
def dedupAux (seen : List String) : List Item → List Item
  | [] => []
  | i :: rest =>
    if i.id ∈ seen then dedupAux seen rest
    else i :: dedupAux (i.id :: seen) rest

/-- collector.py Collector._deduplicate: remove duplicate items based on the
URL-hash id, keeping the first occurrence. -/
def deduplicate (items : List Item) : List Item := dedupAux [] items

/-- collector.py Collector._filter_new: drop already-processed items and items
with a known publication date older than the lookback cutoff
(now - lookback_days days); items with no publication date are never
age-filtered. -/
def filter_new (st : PipelineState) (now : Int) (lookback_days : Int)
    (items : List Item) : List Item :=
  items.filter fun i =>
    !(st.is_processed i.url) &&
      match i.published_at with
      | some t => !(decide (t < now - lookback_days * 86400))
      | none => true

/-- Helper for Collector.collect: the inner loop over one group's sources.
Each fetch outcome is an Except: an error models the exception that the
try/except inside collect catches and turns into zero items; disabled sources
are skipped. -/
def gatherGroup (fetch : String → Source → Except String (List Item))
    (group_name : String) : List Source → List Item
  | [] => []
  | s :: rest =>
    (if s.enabled then
      match fetch group_name s with
      | Except.ok items => items
      | Except.error _ => []
    else []) ++ gatherGroup fetch group_name rest

/-- Helper for Collector.collect: the outer loop over all groups of the
sources configuration (an association list, preserving YAML order). -/
def gather (fetch : String → Source → Except String (List Item)) :
    List (String × List Source) → List Item
  | [] => []
  | (g, srcs) :: rest => gatherGroup fetch g srcs ++ gather fetch rest

/-- collector.py Collector.collect: gather raw items from every enabled
source (a failing source contributing zero items), deduplicate, then filter
against the state and the lookback window. -/
def collect (st : PipelineState) (now : Int) (lookback_days : Int)
    (fetch : String → Source → Except String (List Item))
    (groups : List (String × List Source)) : List Item :=
  filter_new st now lookback_days (deduplicate (gather fetch groups))

end Collector

/-- UTF-8 encoding of one Unicode code point (the byte sequence Python's
str.encode produces for that character), as a list of byte values. -/
def utf8EncodeChar (n : Nat) : List Nat :=
  if n < 128 then [n]
  else if n < 2048 then [192 + n / 64, 128 + n % 64]
  else if n < 65536 then [224 + n / 4096, 128 + n / 64 % 64, 128 + n % 64]
  else [240 + n / 262144, 128 + n / 4096 % 64, 128 + n / 64 % 64, 128 + n % 64]

/-- Models Python str.encode(): the UTF-8 bytes of a string. -/
def utf8Bytes (s : String) : List Nat :=
  s.data.flatMap fun c => utf8EncodeChar c.toNat

/-- Truncation of a natural number to 32 bits. -/
def w32 (n : Nat) : Nat := n % 4294967296

/-- Bitwise complement on 32-bit values. -/
def not32 (n : Nat) : Nat := n ^^^ 4294967295

/-- Left rotation of a 32-bit value by s bits. -/
def rotl32 (x s : Nat) : Nat := w32 (x <<< s) ||| x >>> (32 - s)

/-- The 64 MD5 sine-derived round constants (RFC 1321 table T). -/
def md5K : List Nat :=
  [0xd76aa478, 0xe8c7b756, 0x242070db, 0xc1bdceee,
   0xf57c0faf, 0x4787c62a, 0xa8304613, 0xfd469501,
   0x698098d8, 0x8b44f7af, 0xffff5bb1, 0x895cd7be,
   0x6b901122, 0xfd987193, 0xa679438e, 0x49b40821,
   0xf61e2562, 0xc040b340, 0x265e5a51, 0xe9b6c7aa,
   0xd62f105d, 0x02441453, 0xd8a1e681, 0xe7d3fbc8,
   0x21e1cde6, 0xc33707d6, 0xf4d50d87, 0x455a14ed,
   0xa9e3e905, 0xfcefa3f8, 0x676f02d9, 0x8d2a4c8a,
   0xfffa3942, 0x8771f681, 0x6d9d6122, 0xfde5380c,
   0xa4beea44, 0x4bdecfa9, 0xf6bb4b60, 0xbebfbc70,
   0x289b7ec6, 0xeaa127fa, 0xd4ef3085, 0x04881d05,
   0xd9d4d039, 0xe6db99e5, 0x1fa27cf8, 0xc4ac5665,
   0xf4292244, 0x432aff97, 0xab9423a7, 0xfc93a039,
   0x655b59c3, 0x8f0ccc92, 0xffeff47d, 0x85845dd1,
   0x6fa87e4f, 0xfe2ce6e0, 0xa3014314, 0x4e0811a1,
   0xf7537e82, 0xbd3af235, 0x2ad7d2bb, 0xeb86d391]

/-- The MD5 per-round left-rotation amounts. -/
def md5S : List Nat :=
  [7, 12, 17, 22, 7, 12, 17, 22, 7, 12, 17, 22, 7, 12, 17, 22,
   5, 9, 14, 20, 5, 9, 14, 20, 5, 9, 14, 20, 5, 9, 14, 20,
   4, 11, 16, 23, 4, 11, 16, 23, 4, 11, 16, 23, 4, 11, 16, 23,
   6, 10, 15, 21, 6, 10, 15, 21, 6, 10, 15, 21, 6, 10, 15, 21]

/-- Decode a 64-byte MD5 block into 16 little-endian 32-bit words. -/
def md5Words : List Nat → List Nat
  | a :: b :: c :: d :: rest =>
    (a + 256 * b + 65536 * c + 16777216 * d) :: md5Words rest
  | _ => []

/-- One MD5 round: state transition for round index i with message words M. -/
def md5Step (M : List Nat) (st : Nat × Nat × Nat × Nat) (i : Nat) :
    Nat × Nat × Nat × Nat :=
  let (a, b, c, d) := st
  let fg : Nat × Nat :=
    if i < 16 then ((b &&& c) ||| (not32 b &&& d), i)
    else if i < 32 then ((d &&& b) ||| (not32 d &&& c), (5 * i + 1) % 16)
    else if i < 48 then (b ^^^ c ^^^ d, (3 * i + 5) % 16)
    else (c ^^^ (b ||| not32 d), (7 * i) % 16)
  let f := w32 (fg.1 + a + md5K.getD i 0 + M.getD fg.2 0)
  (d, w32 (b + rotl32 f (md5S.getD i 0)), b, c)

/-- Process one 16-word MD5 block, updating the running state. -/
def md5ProcessChunk (st : Nat × Nat × Nat × Nat) (M : List Nat) :
    Nat × Nat × Nat × Nat :=
  let r := (List.range 64).foldl (md5Step M) st
  (w32 (st.1 + r.1), w32 (st.2.1 + r.2.1), w32 (st.2.2.1 + r.2.2.1),
    w32 (st.2.2.2 + r.2.2.2))

/-- Split a word list into successive 16-word (64-byte) MD5 blocks. -/
def md5Blocks : List Nat → List (List Nat)
  | w0 :: w1 :: w2 :: w3 :: w4 :: w5 :: w6 :: w7 ::
      w8 :: w9 :: w10 :: w11 :: w12 :: w13 :: w14 :: w15 :: rest =>
    [w0, w1, w2, w3, w4, w5, w6, w7, w8, w9, w10, w11, w12, w13, w14, w15] ::
      md5Blocks rest
  | _ => []

/-- Little-endian 8-byte encoding of a 64-bit value. -/
def le64 (n : Nat) : List Nat :=
  [n % 256, n / 256 % 256, n / 65536 % 256, n / 16777216 % 256,
   n / 4294967296 % 256, n / 1099511627776 % 256,
   n / 281474976710656 % 256, n / 72057594037927936 % 256]

/-- MD5 padding: append the 0x80 marker, zeros up to 56 mod 64 bytes, and the
original bit length as 8 little-endian bytes. -/
def md5Pad (msg : List Nat) : List Nat :=
  let z := (119 - msg.length % 64) % 64
  msg ++ 128 :: List.replicate z 0 ++ le64 ((msg.length * 8) % 18446744073709551616)

/-- Little-endian 4-byte encoding of a 32-bit word. -/
def wordLE (w : Nat) : List Nat :=
  [w % 256, w / 256 % 256, w / 65536 % 256, w / 16777216 % 256]

/-- The 16-byte MD5 digest of a byte list (RFC 1321). -/
def md5Digest (msg : List Nat) : List Nat :=
  let st := (md5Blocks (md5Words (md5Pad msg))).foldl md5ProcessChunk
    (0x67452301, 0xefcdab89, 0x98badcfe, 0x10325476)
  wordLE st.1 ++ wordLE st.2.1 ++ wordLE st.2.2.1 ++ wordLE st.2.2.2

/-- Lowercase hexadecimal digit for a value below 16. -/
def hexDigit (n : Nat) : Char :=
  if n < 10 then Char.ofNat (48 + n) else Char.ofNat (87 + n)

/-- Models hashlib.md5(bytes).hexdigest(): the 32 lowercase hex characters of
the MD5 digest. -/
def md5HexChars (msg : List Nat) : List Char :=
  (md5Digest msg).flatMap fun b => [hexDigit (b / 16), hexDigit (b % 16)]

/-- models.py Item.url_hash (and collector.py Collector._url_hash): the first
12 hex characters of the MD5 of the UTF-8 encoded URL. -/
def Item.url_hash (i : Item) : String :=
  String.mk ((md5HexChars (utf8Bytes i.url)).take 12)

/-- Models urllib.parse.urlparse(url).path for absolute hierarchical URLs
(scheme://netloc/path with optional ?query and #fragment), as used by
Article.from_item: drop the scheme and the network location, then keep the
characters before any query or fragment. -/
def urlPath (url : String) : List Char :=
  let l := url.data
  let pre := l.takeWhile fun c => c ≠ ':' ∧ c ≠ '/' ∧ c ≠ '?' ∧ c ≠ '#'
  let afterScheme :=
    match l.drop pre.length with
    | ':' :: rest => rest
    | _ => l
  let afterNetloc :=
    match afterScheme with
    | '/' :: '/' :: rest => rest.dropWhile fun c => c ≠ '/' ∧ c ≠ '?' ∧ c ≠ '#'
    | other => other
  afterNetloc.takeWhile fun c => c ≠ '?' ∧ c ≠ '#'

/-- The slug candidate computed by Article.from_item before the fingerprint
fallback: strip slashes from the URL path, turn inner slashes into dashes,
lowercase, delete every character outside [a-z0-9-], and keep at most 50
characters. -/
def slugCandidate (url : String) : List Char :=
  let path := (pyStripChar '/' (urlPath url)).map fun c =>
    if c = '/' then '-' else c
  ((pyLower path).filter fun c =>
    (97 ≤ c.toNat ∧ c.toNat ≤ 122) ∨ (48 ≤ c.toNat ∧ c.toNat ≤ 57) ∨
      c = '-').take 50

/-- models.py Article: extracted article content. -/
structure Article where
  url : String
  slug : String
  title : String
  extracted_text : String
  extracted_at : Option Int
  success : Bool
  error : Option String
  word_count : Nat
deriving DecidableEq

/-- models.py Article.from_item: create an Article from an Item, deriving the
slug from the URL path and falling back to the URL fingerprint when the
cleaned path is empty. -/
def Article.from_item (item : Item) : Article :=
  let cand := slugCandidate item.url
  { url := item.url
    slug := if cand = [] then item.url_hash else String.mk cand
    title := item.title
    extracted_text := ""
    extracted_at := none
    success := false
    error := none
    word_count := 0 }

namespace Curator

/-- The lowercased concatenation of title, a space, and snippet that both
curator.py matchers and the scoring loop build. -/
def matchText (i : Item) : List Char :=
  pyLower (i.title ++ " " ++ i.snippet).data

/-- curator.py Curator._matches_allowlist: whether any allowlist pattern,
lowercased, occurs in the lowercased title+snippet. -/
def matches_allowlist (cfg : CurationConfig) (i : Item) : Bool :=
  cfg.allowlist.any fun p => containsSub (pyLower p.data) (matchText i)

/-- curator.py Curator._matches_denylist: whether any denylist pattern,
lowercased, occurs in the lowercased title+snippet. -/
def matches_denylist (cfg : CurationConfig) (i : Item) : Bool :=
  cfg.denylist.any fun p => containsSub (pyLower p.data) (matchText i)

/-- curator.py Curator._apply_filters: the filtering loop with its three
continue branches (short title, denylist hit, allowlist miss when the
allowlist is non-empty). -/
def apply_filters (cfg : CurationConfig) : List Item → List Item
  | [] => []
  | i :: rest =>
    if i.title.length < cfg.min_title_length then apply_filters cfg rest
    else if matches_denylist cfg i then apply_filters cfg rest
    else if !cfg.allowlist.isEmpty && !matches_allowlist cfg i then
      apply_filters cfg rest
    else i :: apply_filters cfg rest

/-- curator.py: the per-item score computed inside Curator._score_items:
start at 0, add 1.0 for each allowlist pattern occurring in the lowercased
title+snippet, add the recency boost max(0, 24 - age_hours) / 24 * 2 when a
publication timestamp exists, and add 0.5 for snippets longer than 100
characters. -/
def item_score (cfg : CurationConfig) (now : Int) (i : Item) : ℚ :=
  let s0 : ℚ := 0
  let s1 := cfg.allowlist.foldl
    (fun acc p => if containsSub (pyLower p.data) (matchText i) then acc + 1
      else acc) s0
  let s2 :=
    match i.published_at with
    | some t =>
      let age_hours : ℚ := ((now - t : Int) : ℚ) / 3600
      s1 + max 0 (24 - age_hours) / 24 * 2
    | none => s1
  if 100 < i.snippet.length then s2 + 1 / 2 else s2

/-- The descending-score comparison used to model Python's stable
list.sort(key=score, reverse=True). -/
def scoreGE (a b : Item × ℚ) : Prop := b.2 ≤ a.2

instance : DecidableRel scoreGE := fun a b => inferInstanceAs (Decidable (b.2 ≤ a.2))

instance : IsTotal (Item × ℚ) scoreGE := ⟨fun a b => le_total b.2 a.2⟩

instance : IsTrans (Item × ℚ) scoreGE := ⟨fun _ _ _ h1 h2 => le_trans h2 h1⟩

/-- curator.py Curator._score_items: pair every item with its score in input
order, then sort by score descending with Python's stable sort (modelled by
insertion sort under the scoreGE relation, which yields the unique
score-descending permutation keeping tied items in input order). -/
def score_items (cfg : CurationConfig) (now : Int) (items : List Item) :
    List (Item × ℚ) :=
  List.insertionSort scoreGE (items.map fun i => (i, item_score cfg now i))

/-- Helper for Curator._select_top_per_group: the selection walk with the
per-group counter dictionary (modelled as a total function defaulting to 0,
matching dict.get(group, 0)). -/
def selectAux (N : Nat) (counts : String → Nat) : List (Item × ℚ) → List Item
  | [] => []
  | (i, _) :: rest =>
    if counts i.group < N then
      i :: selectAux N (fun g => if g = i.group then counts i.group + 1 else counts g) rest
    else selectAux N counts rest

/-- curator.py Curator._select_top_per_group: walk the score-sorted sequence
once and keep an item only while its group's counter is below top_per_group. -/
def select_top_per_group (cfg : CurationConfig) (scored : List (Item × ℚ)) :
    List Item :=
  selectAux cfg.top_per_group (fun _ => 0) scored

/-- curator.py Curator.curate: filter, score and rank, then select the top N
per group. -/
def curate (cfg : CurationConfig) (now : Int) (items : List Item) : List Item :=
  select_top_per_group cfg (score_items cfg now (apply_filters cfg items))

end Curator

/-- Scoring formula as the claim words it, with the amendment that allowlist
entries count with multiplicity: the number of allowlist entries whose
lowercase form occurs in the lowercased title+snippet, plus the recency boost,
plus the long-snippet bonus. -/
def claimedScoreMult (cfg : CurationConfig) (now : Int) (i : Item) : ℚ :=
  (cfg.allowlist.countP fun p => containsSub (pyLower p.data) (Curator.matchText i)) +
    (match i.published_at with
     | some t => max 0 (24 - ((now - t : Int) : ℚ) / 3600) / 24 * 2
     | none => 0) +
    (if 100 < i.snippet.length then 1 / 2 else 0)

/-- Scoring formula exactly as the claim words it: one point per DISTINCT
allowlist substring matched case-insensitively (duplicate or case-variant
entries of the allowlist count once), plus recency boost and snippet bonus.
Stated from the claim text, for comparison against the code's item_score. -/
def claimedScoreDistinct (cfg : CurationConfig) (now : Int) (i : Item) : ℚ :=
  ((cfg.allowlist.map fun p => pyLower p.data).dedup.countP
      fun p => containsSub p (Curator.matchText i)) +
    (match i.published_at with
     | some t => max 0 (24 - ((now - t : Int) : ℚ) / 3600) / 24 * 2
     | none => 0) +
    (if 100 < i.snippet.length then 1 / 2 else 0)

namespace Reader

/-- The content of one file written by Reader._save_article: either the
markdown flow-text document, or the sidecar metadata record with the fields
the Python dict carries (url, title, slug, word count, timestamp, success
flag, error). -/
inductive FileContent where
  | text (body : String)
  | meta (url title slug : String) (word_count : Nat) (extracted_at : Option Int)
      (success : Bool) (error : Option String)
deriving DecidableEq

/-- The environment one Reader.extract call runs against, capturing the
outcome of each effectful stage for the item at hand:
fetchHtml is the result of Reader._fetch_html (ok none models its None
return, an error models an exception escaping it into the outer handler);
extractContent is Reader._extract_content (internally exception-safe,
returning None on failure); toMarkdown is Reader._to_markdown (internally
exception-safe, returning the empty string on failure); saveArticle tells
whether Reader._save_article completes or raises (an error models an I/O
exception, in which case no durable artifact is counted as written). -/
structure ExtractEnv where
  fetchHtml : Except String (Option String)
  extractContent : String → Option String
  toMarkdown : String → String
  saveArticle : Except String Unit
  now : Int

/-- The too-short check of reader.py Reader.extract: the converted markdown is
falsy (empty) or its stripped length is below 100 characters. -/
def tooShort (markdown : String) : Bool :=
  markdown.data.isEmpty || decide ((pyStripWs markdown.data).length < 100)

/-- reader.py Reader.extract, with the files _save_article writes alongside
the returned Article: start from Article.from_item; a failed fetch, a failed
content extraction or a too-short conversion record an error and return with
success still false; otherwise the article is completed, success is set, and
_save_article writes the flow-text document and the metadata sidecar, both
keyed by the slug — an exception while saving is caught by the surrounding
handler, which records the message in error (after success was already set). -/
def extractRun (env : ExtractEnv) (item : Item) :
    Article × List (String × FileContent) :=
  let article := Article.from_item item
  match env.fetchHtml with
  | Except.error e => ({ article with error := some e }, [])
  | Except.ok none => ({ article with error := some "Failed to fetch HTML" }, [])
  | Except.ok (some html) =>
    match env.extractContent html with
    | none => ({ article with error := some "Failed to extract content" }, [])
    | some content =>
      let markdown := env.toMarkdown content
      if tooShort markdown then
        ({ article with error := some "Extracted content too short" }, [])
      else
        let done := { article with
          extracted_text := markdown
          word_count := pyWordCount markdown
          extracted_at := some env.now
          success := true }
        match env.saveArticle with
        | Except.ok _ =>
          (done,
            [(done.slug ++ ".md", FileContent.text done.extracted_text),
             (done.slug ++ ".meta.json",
               FileContent.meta done.url done.title done.slug done.word_count
                 done.extracted_at done.success done.error)])
        | Except.error e => ({ done with error := some e }, [])

/-- reader.py Reader.extract: the Article returned for one item. -/
def extract (env : ExtractEnv) (item : Item) : Article :=
  (extractRun env item).1

/-- The durable artifacts written while extracting one item (slug-keyed file
name paired with content), per reader.py Reader._save_article. -/
def extractWrites (env : ExtractEnv) (item : Item) :
    List (String × FileContent) :=
  (extractRun env item).2

end Reader

/-- Shared empty pipeline state for witnesses and counterexamples. -/
def emptyState : PipelineState :=
  { last_run := none, processed_urls := [], processed_dates := [] }

/-- Shared concrete item builder for witnesses and counterexamples. -/
def sampleItem (id title url : String) (pub : Option Int) (snippet : String)
    (group : String) : Item :=
  { id := id, title := title, url := url, published_at := pub,
    source := "src", snippet := snippet, tags := [], group := group,
    status := ItemStatus.pending }

/-- Shared concrete curation configuration whose allowlist repeats one
pattern, for the C4 counterexample. -/
def c4cfg : CurationConfig :=
  { top_per_group := 5, allowlist := ["ai", "ai"], denylist := [],
    min_title_length := 10, max_age_days := 7 }

/-- Counterexample input for C4: an item matching the repeated pattern. -/
def c4item : Item :=
  sampleItem "x1" "the ai weekly roundup" "https://x.example/ai" none "" "g"

/-- Shared concrete enabled source for witnesses. -/
def srcNamed (n : String) : Source :=
  { name := n, type := SourceType.rss, url := "https://feed.example/" ++ n,
    tags := [], priority := 1, enabled := true }

/-- Extraction environment for the C8 counterexample: every content stage
succeeds but persisting the article raises. -/
def c8env : Reader.ExtractEnv :=
  { fetchHtml := Except.ok (some "<html><p>page</p></html>")
    extractContent := fun _ => some "<p>body</p>"
    toMarkdown := fun _ => String.mk (List.replicate 120 'a')
    saveArticle := Except.error "disk full"
    now := 0 }

/-- Item for the C8 counterexample and witness. -/
def c8item : Item :=
  sampleItem "c8" "A long enough title" "https://x.example/c8-art" none "" "g"

/-- Extraction environment for the C8 witness: conversion yields a too-short
text. -/
def c8envShort : Reader.ExtractEnv :=
  { fetchHtml := Except.ok (some "<html><p>page</p></html>")
    extractContent := fun _ => some "<p>body</p>"
    toMarkdown := fun _ => "tiny"
    saveArticle := Except.ok ()
    now := 0 }

/-- Extraction environment for the C9 counterexample: the page fetch returns
nothing, saving itself would complete fine. -/
def c9envFail : Reader.ExtractEnv :=
  { fetchHtml := Except.ok none
    extractContent := fun _ => some "<p>body</p>"
    toMarkdown := fun s => s
    saveArticle := Except.ok ()
    now := 0 }

/-- Item for the C9 counterexample and witness. -/
def c9item : Item :=
  sampleItem "c9" "A long enough title" "https://x.example/c9-art" none "" "g"

/-- Extraction environment for the C9 witness: everything succeeds. -/
def c9envGood : Reader.ExtractEnv :=
  { fetchHtml := Except.ok (some "<html><p>page</p></html>")
    extractContent := fun _ => some "<p>body</p>"
    toMarkdown := fun _ => String.mk (List.replicate 120 'a')
    saveArticle := Except.ok ()
    now := 42 }

theorem mem_add_url (st : PipelineState) (v u : String) :
    u ∈ (st.add_url v).processed_urls ↔ u = v ∨ u ∈ st.processed_urls := by
  by_cases hv : v ∈ st.processed_urls
  · simp only [PipelineState.add_url, if_pos hv]
    exact ⟨fun h => Or.inr h, fun h => h.elim (fun e => e ▸ hv) id⟩
  · simp [PipelineState.add_url, if_neg hv, List.mem_cons]

theorem mem_foldl_add_url (items : List Item) (st : PipelineState) (u : String) :
    u ∈ (items.foldl (fun s i => s.add_url i.url) st).processed_urls ↔
      u ∈ st.processed_urls ∨ u ∈ items.map Item.url := by
  induction items generalizing st with
  | nil => simp
  | cons i rest ih =>
    simp only [List.foldl_cons, ih, mem_add_url, List.map_cons, List.mem_cons]
    tauto

theorem mem_filter_new (st : PipelineState) (now lookback : Int)
    (items : List Item) (j : Item) :
    j ∈ Collector.filter_new st now lookback items ↔
      j ∈ items ∧ st.is_processed j.url = false ∧
        (match j.published_at with
         | some t => ¬ t < now - lookback * 86400
         | none => True) := by
  simp only [Collector.filter_new, List.mem_filter, Bool.and_eq_true,
    Bool.not_eq_true']
  constructor
  · rintro ⟨hm, hp, hq⟩
    refine ⟨hm, hp, ?_⟩
    cases h : j.published_at with
    | none => exact trivial
    | some t => rw [h] at hq; simpa using hq
  · rintro ⟨hm, hp, hq⟩
    refine ⟨hm, hp, ?_⟩
    cases h : j.published_at with
    | none => simp
    | some t => rw [h] at hq; simpa using hq

/-- C1: marking a URL processed and saving state, then loading it in a fresh
Collector, reports the URL as processed and excludes every item with that URL
from filter_new and collect; in general the load of a save restores a
processed-URL set equivalent to the one saved. -/
theorem c1_processed_url_roundtrip_suppression
    (st : PipelineState) (items others : List Item) (u : String)
    (now tmark lookback : Int)
    (fetch : String → Source → Except String (List Item))
    (groups : List (String × List Source)) :
    (∀ v, (Collector.load_state (some (Collector.save_state st))).is_processed v
        = st.is_processed v)
    ∧ (u ∈ items.map Item.url →
        (Collector.load_state (some (Collector.save_state
          (Collector.mark_processed st tmark items)))).is_processed u = true)
    ∧ (st.is_processed u = true →
        ∀ j ∈ Collector.filter_new st now lookback others, j.url ≠ u)
    ∧ (st.is_processed u = true →
        ∀ j ∈ Collector.collect st now lookback fetch groups, j.url ≠ u) := by
  have hload : ∀ (s : PipelineState) (v : String),
      (Collector.load_state (some (Collector.save_state s))).is_processed v
        = s.is_processed v := by
    intro s v
    simp [Collector.load_state, Collector.save_state, PipelineState.is_processed,
      List.mem_dedup]
  have hexcl : ∀ (s : PipelineState) (n lb : Int) (l : List Item),
      s.is_processed u = true →
      ∀ j ∈ Collector.filter_new s n lb l, j.url ≠ u := by
    intro s n lb l hu j hj hju
    rcases (mem_filter_new s n lb l j).mp hj with ⟨-, hfalse, -⟩
    rw [hju, hu] at hfalse
    simp at hfalse
  refine ⟨fun v => hload st v, ?_, hexcl st now lookback others, ?_⟩
  · intro hu
    rw [hload]
    simp only [Collector.mark_processed, PipelineState.is_processed]
    exact decide_eq_true ((mem_foldl_add_url items st u).mpr (Or.inr hu))
  · intro hu
    exact hexcl st now lookback (Collector.deduplicate (Collector.gather fetch groups)) hu

/-- Witness for C1 at concrete inputs: the URL of a marked item is reported
processed by a fresh Collector loading the saved state. -/
theorem c1_witness :
    (Collector.load_state (some (Collector.save_state
      (Collector.mark_processed emptyState 5
        [sampleItem "id1" "A long enough title" "https://x.example/one" none "" "g"])))).is_processed
      "https://x.example/one" = true :=
  (c1_processed_url_roundtrip_suppression emptyState
      [sampleItem "id1" "A long enough title" "https://x.example/one" none "" "g"]
      [] "https://x.example/one" 0 5 7 (fun _ _ => Except.ok []) []).2.1
    (by decide)

theorem dedupAux_sublist : ∀ (l : List Item) (seen : List String),
    List.Sublist (Collector.dedupAux seen l) l
  | [], _ => List.Sublist.slnil
  | i :: rest, seen => by
    unfold Collector.dedupAux
    by_cases h : i.id ∈ seen
    · rw [if_pos h]
      exact (dedupAux_sublist rest seen).cons i
    · rw [if_neg h]
      exact (dedupAux_sublist rest (i.id :: seen)).cons₂ i

theorem dedupAux_filter (x : String) : ∀ (l : List Item) (seen : List String),
    (Collector.dedupAux seen l).filter (fun a => a.id == x) =
      if x ∈ seen then [] else (l.filter (fun a => a.id == x)).take 1
  | [], seen => by
    simp only [Collector.dedupAux, List.filter_nil, List.take_nil]
    split <;> rfl
  | i :: rest, seen => by
    unfold Collector.dedupAux
    by_cases hseen : i.id ∈ seen
    · rw [if_pos hseen, dedupAux_filter x rest seen]
      by_cases hx : x ∈ seen
      · rw [if_pos hx, if_pos hx]
      · have hne : (i.id == x) = false := by
          simp only [beq_eq_false_iff_ne, ne_eq]
          exact fun e => hx (e ▸ hseen)
        rw [if_neg hx, if_neg hx, List.filter_cons_of_neg (by simp [hne])]
    · rw [if_neg hseen]
      by_cases hix : i.id = x
      · subst hix
        rw [List.filter_cons_of_pos (by simp), dedupAux_filter i.id rest (i.id :: seen),
          if_pos (List.mem_cons_self i.id seen), if_neg hseen,
          List.filter_cons_of_pos (by simp)]
        rfl
      · have hne : (i.id == x) = false := by simpa using hix
        rw [List.filter_cons_of_neg (by simp [hne]),
          dedupAux_filter x rest (i.id :: seen),
          List.filter_cons_of_neg (by simp [hne])]
        by_cases hx : x ∈ seen
        · rw [if_pos (List.mem_cons_of_mem i.id hx), if_pos hx]
        · rw [if_neg ?_, if_neg hx]
          simp only [List.mem_cons]
          exact fun h => h.elim (fun e => hix e.symm) hx

theorem dedupAux_nodup : ∀ (l : List Item) (seen : List String),
    ((Collector.dedupAux seen l).map Item.id).Nodup ∧
      ∀ a ∈ Collector.dedupAux seen l, a.id ∉ seen
  | [], seen => by simp [Collector.dedupAux]
  | i :: rest, seen => by
    unfold Collector.dedupAux
    by_cases h : i.id ∈ seen
    · rw [if_pos h]
      exact dedupAux_nodup rest seen
    · rw [if_neg h]
      obtain ⟨ihn, ihs⟩ := dedupAux_nodup rest (i.id :: seen)
      refine ⟨List.nodup_cons.mpr ⟨?_, ihn⟩, ?_⟩
      · intro hmem
        obtain ⟨a, ha, hai⟩ := List.mem_map.mp hmem
        exact (ihs a ha) (hai ▸ List.mem_cons_self a.id seen)
      · intro a ha
        rcases List.mem_cons.mp ha with rfl | ha2
        · exact h
        · exact fun hs => (ihs a ha2) (List.mem_cons_of_mem i.id hs)

/-- C2: deduplication keeps exactly the first occurrence of each id, the
result has pairwise-distinct ids, and — for item lists where the id is a
fingerprint of the URL (equal ids exactly for equal URLs) — exactly the first
of the items sharing any URL survives. -/
theorem c2_dedup_keeps_first (items : List Item) :
    ((Collector.deduplicate items).map Item.id).Nodup
    ∧ (∀ x : String, (Collector.deduplicate items).filter (fun a => a.id == x)
        = (items.filter (fun a => a.id == x)).take 1)
    ∧ (∀ u : String,
        (∀ a ∈ items, ∀ b ∈ items, (a.id = b.id ↔ a.url = b.url)) →
        (Collector.deduplicate items).filter (fun a => a.url == u)
          = (items.filter (fun a => a.url == u)).take 1
        ∧ ((Collector.deduplicate items).filter (fun a => a.url == u)).length
          = min 1 (items.filter (fun a => a.url == u)).length) := by
  have hfil : ∀ x : String, (Collector.deduplicate items).filter (fun a => a.id == x)
      = (items.filter (fun a => a.id == x)).take 1 := by
    intro x
    rw [Collector.deduplicate, dedupAux_filter x items []]
    simp
  refine ⟨(dedupAux_nodup items []).1, hfil, ?_⟩
  intro u hcorr
  have main : (Collector.deduplicate items).filter (fun a => a.url == u)
      = (items.filter (fun a => a.url == u)).take 1 := by
    cases h : items.filter (fun a => a.url == u) with
    | nil =>
      have hnone : ∀ a ∈ items, ¬ ((fun a => a.url == u) a = true) :=
        List.filter_eq_nil_iff.mp h
      have : (Collector.deduplicate items).filter (fun a => a.url == u) = [] := by
        apply List.filter_eq_nil_iff.mpr
        intro a ha
        exact hnone a ((dedupAux_sublist items []).subset ha)
      rw [this]
      rfl
    | cons x xs =>
      have hxmem : x ∈ items.filter (fun a => a.url == u) := by
        rw [h]; exact List.mem_cons_self x xs
      obtain ⟨hxitems, hxu⟩ := List.mem_filter.mp hxmem
      have hxurl : x.url = u := by simpa using hxu
      have hagree : ∀ a ∈ items, ((fun a => a.url == u) a) = ((fun a => a.id == x.id) a) := by
        intro a ha
        have hiff := hcorr a ha x hxitems
        rw [Bool.eq_iff_iff]
        simp only [beq_iff_eq]
        rw [← hxurl]
        exact hiff.symm
      have h1 : items.filter (fun a => a.url == u)
          = items.filter (fun a => a.id == x.id) := List.filter_congr hagree
      have h2 : (Collector.deduplicate items).filter (fun a => a.url == u)
          = (Collector.deduplicate items).filter (fun a => a.id == x.id) :=
        List.filter_congr fun a ha =>
          hagree a ((dedupAux_sublist items []).subset ha)
      rw [← h] at *
      rw [h2, h1, hfil x.id]
  exact ⟨main, by rw [main, List.length_take]⟩

/-- Witness for C2 at concrete inputs: of three items, the first two sharing
one URL (and one URL fingerprint), exactly the first survives deduplication. -/
theorem c2_witness :
    (Collector.deduplicate
        [sampleItem "h1" "Title one long" "https://x.example/1" none "" "g",
         sampleItem "h1" "Title two long" "https://x.example/1" none "" "g",
         sampleItem "h2" "Title three long" "https://x.example/2" none "" "g"]).filter
      (fun a => a.url == "https://x.example/1")
      = ([sampleItem "h1" "Title one long" "https://x.example/1" none "" "g",
          sampleItem "h1" "Title two long" "https://x.example/1" none "" "g",
          sampleItem "h2" "Title three long" "https://x.example/2" none "" "g"].filter
          (fun a => a.url == "https://x.example/1")).take 1 :=
  ((c2_dedup_keeps_first
      [sampleItem "h1" "Title one long" "https://x.example/1" none "" "g",
       sampleItem "h1" "Title two long" "https://x.example/1" none "" "g",
       sampleItem "h2" "Title three long" "https://x.example/2" none "" "g"]).2.2
    "https://x.example/1" (by decide)).1

theorem selectAux_filter (N : Nat) (g : String) :
    ∀ (l : List (Item × ℚ)) (counts : String → Nat),
    (Curator.selectAux N counts l).filter (fun i => i.group == g) =
      ((l.filter fun p => p.1.group == g).map Prod.fst).take (N - counts g)
  | [], counts => by simp [Curator.selectAux]
  | (i, s) :: rest, counts => by
    unfold Curator.selectAux
    by_cases hc : counts i.group < N
    · rw [if_pos hc]
      by_cases hg : i.group = g
      · subst hg
        rw [List.filter_cons_of_pos (by simp),
          List.filter_cons_of_pos (by simp),
          selectAux_filter N i.group rest _]
        simp only [if_pos rfl, List.map_cons]
        have hpos : 0 < N - counts i.group := Nat.sub_pos_of_lt hc
        rw [← Nat.succ_pred_eq_of_pos hpos, List.take_succ_cons]
        congr 1
      · rw [List.filter_cons_of_neg (by simpa using hg),
          List.filter_cons_of_neg (by simpa using hg),
          selectAux_filter N g rest _]
        have hcount : (if g = i.group then counts i.group + 1 else counts g) = counts g :=
          if_neg fun e => hg e.symm
        simp only [hcount]
    · rw [if_neg hc]
      by_cases hg : i.group = g
      · subst hg
        have hz : N - counts i.group = 0 := Nat.sub_eq_zero_of_le (Nat.le_of_not_lt hc)
        rw [selectAux_filter N i.group rest counts, hz]
        simp
      · rw [List.filter_cons_of_neg (by simpa using hg),
          selectAux_filter N g rest counts]

/-- C3: the one-pass per-group-counter selection keeps, for every group g,
exactly the first min(top_per_group, M) of the M candidates of g, in the
order of the (score-sorted) input sequence — so with a score-descending
input it keeps the N highest-scoring items of each group, order preserved. -/
theorem c3_select_top_per_group (cfg : CurationConfig)
    (scored : List (Item × ℚ)) (g : String) :
    (Curator.select_top_per_group cfg scored).filter (fun i => i.group == g)
      = ((scored.filter fun p => p.1.group == g).map Prod.fst).take cfg.top_per_group
    ∧ ((Curator.select_top_per_group cfg scored).filter (fun i => i.group == g)).length
      = min cfg.top_per_group (scored.filter fun p => p.1.group == g).length := by
  have h := selectAux_filter cfg.top_per_group g scored (fun _ => 0)
  rw [Curator.select_top_per_group]
  refine ⟨by simpa using h, ?_⟩
  rw [h]
  simp [List.length_take, List.length_map]

theorem foldl_score_count (t : List Char) :
    ∀ (l : List String) (a : ℚ),
    l.foldl (fun acc p => if containsSub (pyLower p.data) t then acc + 1 else acc) a
      = a + l.countP (fun p => containsSub (pyLower p.data) t)
  | [], a => by simp
  | p :: rest, a => by
    simp only [List.foldl_cons, List.countP_cons]
    rw [foldl_score_count t rest _]
    by_cases h : containsSub (pyLower p.data) t
    · simp only [if_pos h, h]
      push_cast
      ring
    · simp [h]

theorem filter_orderedInsert (x : Item × ℚ) (l : List (Item × ℚ)) (c : ℚ) :
    (List.orderedInsert Curator.scoreGE x l).filter (fun p => p.2 == c) =
      if x.2 == c then x :: l.filter (fun p => p.2 == c)
      else l.filter (fun p => p.2 == c) := by
  rw [List.orderedInsert_eq_take_drop]
  by_cases h : x.2 = c
  · have hxc : (x.2 == c) = true := by simpa using h
    have htake : (l.takeWhile fun b => decide ¬ (Curator.scoreGE x b)).filter
        (fun p => p.2 == c) = [] := by
      apply List.filter_eq_nil_iff.mpr
      intro b hb
      have hbw := List.mem_takeWhile_imp hb
      have hnot : ¬ Curator.scoreGE x b := by simpa using hbw
      have : x.2 < b.2 := lt_of_not_le hnot
      simp only [beq_iff_eq]
      intro e
      exact absurd (e ▸ h.symm ▸ rfl : b.2 = x.2) (ne_of_gt this)
    rw [if_pos hxc, List.filter_append, htake,
      List.filter_cons_of_pos (by simpa using hxc)]
    conv_rhs => rw [← List.takeWhile_append_dropWhile
      (fun b => decide ¬ (Curator.scoreGE x b)) l]
    rw [List.filter_append, htake]
    rfl
  · have hxc : (x.2 == c) = false := by simpa using h
    rw [if_neg (by simp [hxc])]
    conv_rhs => rw [← List.takeWhile_append_dropWhile
      (fun b => decide ¬ (Curator.scoreGE x b)) l]
    rw [List.filter_append, List.filter_append,
      List.filter_cons_of_neg (by simp [hxc])]

theorem filter_insertionSort_score (c : ℚ) :
    ∀ l : List (Item × ℚ),
    (List.insertionSort Curator.scoreGE l).filter (fun p => p.2 == c)
      = l.filter (fun p => p.2 == c)
  | [] => rfl
  | x :: rest => by
    rw [List.insertionSort, filter_orderedInsert x _ c,
      filter_insertionSort_score c rest]
    by_cases h : x.2 == c
    · rw [if_pos h, List.filter_cons_of_pos (by simpa using h)]
    · rw [if_neg (by simpa using h),
        List.filter_cons_of_neg (by simp [Bool.eq_false_iff.mpr, h])]

/-- C4 (amended): the per-item score equals 1 point per allowlist ENTRY whose
lowercase form occurs in the lowercased title+snippet (entries counted with
multiplicity, not per distinct substring), plus the recency boost
max(0, 24 - age_hours)/24*2 (0 when published_at is absent), plus 0.5 for
snippets longer than 100 characters; and the scored list is score-descending
with ties retaining relative input order (stable sort). -/
theorem c4_score_formula_and_stable_sort (cfg : CurationConfig) (now : Int)
    (items : List Item) :
    (∀ i : Item, Curator.item_score cfg now i = claimedScoreMult cfg now i)
    ∧ List.Pairwise Curator.scoreGE (Curator.score_items cfg now items)
    ∧ (Curator.score_items cfg now items).Perm
        (items.map fun i => (i, Curator.item_score cfg now i))
    ∧ ∀ c : ℚ, (Curator.score_items cfg now items).filter (fun p => p.2 == c)
        = (items.map fun i => (i, Curator.item_score cfg now i)).filter
            (fun p => p.2 == c) := by
  refine ⟨?_, ?_, ?_, ?_⟩
  · intro i
    unfold Curator.item_score claimedScoreMult
    dsimp only
    simp only [foldl_score_count]
    cases hpub : i.published_at with
    | none =>
      by_cases hsn : 100 < i.snippet.length
      · rw [if_pos hsn, if_pos hsn]; ring
      · rw [if_neg hsn, if_neg hsn]; ring
    | some t =>
      by_cases hsn : 100 < i.snippet.length
      · rw [if_pos hsn, if_pos hsn]; ring
      · rw [if_neg hsn, if_neg hsn]; ring
  · exact List.sorted_insertionSort Curator.scoreGE _
  · exact List.perm_insertionSort Curator.scoreGE _
  · intro c
    exact filter_insertionSort_score c _

/-- Counterexample for C4 as stated: with a repeated allowlist entry the code
scores 2.0 (one point per entry) where the claimed formula, one point per
DISTINCT matched substring, gives 1.0. -/
theorem c4_counterexample :
    Curator.item_score c4cfg 0 c4item = 2
    ∧ claimedScoreDistinct c4cfg 0 c4item = 1
    ∧ Curator.item_score c4cfg 0 c4item ≠ claimedScoreDistinct c4cfg 0 c4item := by
  refine ⟨?_, ?_, ?_⟩
  · simp +decide [Curator.item_score, c4cfg, c4item, sampleItem]
    norm_num
  · simp +decide [claimedScoreDistinct, c4cfg, c4item, sampleItem]
  · simp +decide [Curator.item_score, claimedScoreDistinct, c4cfg, c4item,
      sampleItem]

theorem apply_filters_eq_filter (cfg : CurationConfig) :
    ∀ items : List Item, Curator.apply_filters cfg items
      = items.filter fun i =>
          !(decide (i.title.length < cfg.min_title_length))
            && !(Curator.matches_denylist cfg i)
            && (cfg.allowlist.isEmpty || Curator.matches_allowlist cfg i)
  | [] => rfl
  | i :: rest => by
    unfold Curator.apply_filters
    rw [apply_filters_eq_filter cfg rest]
    by_cases h1 : i.title.length < cfg.min_title_length
    · rw [if_pos h1, List.filter_cons_of_neg (by simp [h1])]
    · rw [if_neg h1]
      by_cases h2 : Curator.matches_denylist cfg i = true
      · rw [if_pos h2, List.filter_cons_of_neg (by simp [h1, h2])]
      · have h2f : Curator.matches_denylist cfg i = false := Bool.eq_false_iff.mpr h2
        rw [if_neg h2]
        by_cases h3 : (!cfg.allowlist.isEmpty && !Curator.matches_allowlist cfg i) = true
        · rw [if_pos h3, List.filter_cons_of_neg (by
            have h3c := h3
            rw [Bool.and_eq_true] at h3c
            have he : cfg.allowlist.isEmpty = false := by simpa using h3c.1
            have ha : Curator.matches_allowlist cfg i = false := by simpa using h3c.2
            simp [he, ha])]
        · rw [if_neg h3, List.filter_cons_of_pos (by
            simp only [Bool.and_eq_true, Bool.not_eq_true',
              decide_eq_false_iff_not, Bool.or_eq_true]
            refine ⟨⟨h1, h2f⟩, ?_⟩
            by_cases he : cfg.allowlist.isEmpty = true
            · exact Or.inl he
            · right
              have hne : (!cfg.allowlist.isEmpty) = true := by
                simp [Bool.eq_false_iff.mpr he]
              by_contra ha
              refine h3 ?_
              rw [Bool.and_eq_true]
              exact ⟨hne, by simp [Bool.eq_false_iff.mpr ha]⟩)]

/-- C5: the Curator filter phase drops an item iff its title is shorter than
min_title_length, or its lowercased title+snippet contains a denylist
substring (even when it also matches the allowlist), or the allowlist is
non-empty and no allowlist substring occurs; the kept items appear in input
order (the pass is a filter). -/
theorem c5_filter_semantics (cfg : CurationConfig) (items : List Item) :
    Curator.apply_filters cfg items
      = (items.filter fun i =>
          !(decide (i.title.length < cfg.min_title_length))
            && !(Curator.matches_denylist cfg i)
            && (cfg.allowlist.isEmpty || Curator.matches_allowlist cfg i))
    ∧ ∀ i : Item, i ∈ Curator.apply_filters cfg items ↔
        i ∈ items ∧ cfg.min_title_length ≤ i.title.length
          ∧ Curator.matches_denylist cfg i = false
          ∧ (cfg.allowlist = [] ∨ Curator.matches_allowlist cfg i = true) := by
  refine ⟨apply_filters_eq_filter cfg items, ?_⟩
  intro i
  rw [apply_filters_eq_filter cfg items, List.mem_filter]
  simp only [Bool.and_eq_true, Bool.or_eq_true, Bool.not_eq_true',
    decide_eq_false_iff_not, Nat.not_lt, List.isEmpty_iff]
  tauto

/-- C6: Collector lookback filtering — an item with a known publication date
older than now minus lookback_days is excluded; an item published within the
window is retained when not processed-suppressed; an item with no publication
timestamp is never age-filtered. -/
theorem c6_lookback_filtering (st : PipelineState) (now lookback : Int)
    (items : List Item) (i : Item) (t : Int) :
    (i.published_at = some t → t < now - lookback * 86400 →
      i ∉ Collector.filter_new st now lookback items)
    ∧ (i ∈ items → st.is_processed i.url = false → i.published_at = some t →
        now - lookback * 86400 ≤ t → i ∈ Collector.filter_new st now lookback items)
    ∧ (i ∈ items → st.is_processed i.url = false → i.published_at = none →
        i ∈ Collector.filter_new st now lookback items) := by
  refine ⟨?_, ?_, ?_⟩
  · intro hpub hold hmem
    obtain ⟨-, -, hq⟩ := (mem_filter_new st now lookback items i).mp hmem
    rw [hpub] at hq
    exact hq hold
  · intro hm hp hpub hle
    refine (mem_filter_new st now lookback items i).mpr ⟨hm, hp, ?_⟩
    rw [hpub]
    exact not_lt.mpr hle
  · intro hm hp hpub
    refine (mem_filter_new st now lookback items i).mpr ⟨hm, hp, ?_⟩
    rw [hpub]
    trivial

/-- Witness for C6 at concrete inputs: an item published 10 days before a run
with a 7-day lookback is excluded. -/
theorem c6_witness :
    sampleItem "old" "An old article title" "https://x.example/old"
        (some 136000) "" "g"
      ∉ Collector.filter_new emptyState 1000000 7
        [sampleItem "old" "An old article title" "https://x.example/old"
          (some 136000) "" "g"] :=
  (c6_lookback_filtering emptyState 1000000 7
      [sampleItem "old" "An old article title" "https://x.example/old"
        (some 136000) "" "g"]
      (sampleItem "old" "An old article title" "https://x.example/old"
        (some 136000) "" "g") 136000).1
    rfl (by decide)

theorem gatherGroup_append (fetch : String → Source → Except String (List Item))
    (g : String) : ∀ l1 l2 : List Source,
    Collector.gatherGroup fetch g (l1 ++ l2)
      = Collector.gatherGroup fetch g l1 ++ Collector.gatherGroup fetch g l2
  | [], l2 => rfl
  | s :: rest, l2 => by
    simp only [List.cons_append, Collector.gatherGroup, List.append_assoc]
    exact congrArg _ (gatherGroup_append fetch g rest l2)

theorem gather_append (fetch : String → Source → Except String (List Item)) :
    ∀ l1 l2 : List (String × List Source),
    Collector.gather fetch (l1 ++ l2)
      = Collector.gather fetch l1 ++ Collector.gather fetch l2
  | [], l2 => rfl
  | (g, srcs) :: rest, l2 => by
    simp only [List.cons_append, Collector.gather, List.append_assoc]
    exact congrArg _ (gather_append fetch rest l2)

/-- C7: an exception while fetching one enabled source is caught and treated
as zero items from that source — the gathered items, and the final result of
collect, are exactly those of a configuration without that source. -/
theorem c7_source_failure_isolation
    (fetch : String → Source → Except String (List Item))
    (pre post : List (String × List Source)) (g : String)
    (s1 s2 : List Source) (b : Source) (e : String)
    (st : PipelineState) (now lookback : Int) :
    b.enabled = true → fetch g b = Except.error e →
    Collector.gather fetch (pre ++ (g, s1 ++ b :: s2) :: post)
      = Collector.gather fetch (pre ++ (g, s1 ++ s2) :: post)
    ∧ Collector.collect st now lookback fetch (pre ++ (g, s1 ++ b :: s2) :: post)
      = Collector.collect st now lookback fetch (pre ++ (g, s1 ++ s2) :: post) := by
  intro hb hf
  have hgg : Collector.gatherGroup fetch g (s1 ++ b :: s2)
      = Collector.gatherGroup fetch g (s1 ++ s2) := by
    rw [gatherGroup_append, gatherGroup_append]
    congr 1
    simp only [Collector.gatherGroup, hb, hf, if_true, List.nil_append]
  have hgather : Collector.gather fetch (pre ++ (g, s1 ++ b :: s2) :: post)
      = Collector.gather fetch (pre ++ (g, s1 ++ s2) :: post) := by
    rw [gather_append, gather_append]
    simp only [Collector.gather, hgg]
  exact ⟨hgather, by unfold Collector.collect; rw [hgather]⟩

/-- Witness for C7 at concrete inputs: a configuration whose middle source
always raises yields exactly the items of the configuration without it. -/
theorem c7_witness :
    Collector.gather
        (fun gname s => if s.name == "bad" then Except.error "boom"
          else Except.ok [sampleItem s.name ("Title from " ++ s.name)
            ("https://x.example/" ++ s.name) none "" gname])
        [("g", [srcNamed "ok1", srcNamed "bad", srcNamed "ok2"])]
      = Collector.gather
        (fun gname s => if s.name == "bad" then Except.error "boom"
          else Except.ok [sampleItem s.name ("Title from " ++ s.name)
            ("https://x.example/" ++ s.name) none "" gname])
        [("g", [srcNamed "ok1", srcNamed "ok2"])] :=
  (c7_source_failure_isolation
      (fun gname s => if s.name == "bad" then Except.error "boom"
        else Except.ok [sampleItem s.name ("Title from " ++ s.name)
          ("https://x.example/" ++ s.name) none "" gname])
      [] [] "g" [srcNamed "ok1"] [srcNamed "ok2"] (srcNamed "bad") "boom"
      emptyState 0 7 rfl rfl).1

/-- C8 (amended): extract always returns an Article; a failed fetch, a failed
content extraction, or a too-short conversion yields success = false with a
non-null error — the too-short case with reason "Extracted content too short"
rather than a short success; an exception while persisting an
already-successful extraction is caught and recorded in error while success
remains true. So success = false always comes with a non-null error, but a
non-null error can accompany success = true in the save-failure case. -/
theorem c8_extract_error_handling (env : Reader.ExtractEnv) (item : Item) :
    ((Reader.extract env item).success = false →
      (Reader.extract env item).error ≠ none)
    ∧ (∀ e, env.fetchHtml = Except.error e →
        (Reader.extract env item).success = false
          ∧ (Reader.extract env item).error = some e)
    ∧ (env.fetchHtml = Except.ok none →
        (Reader.extract env item).success = false
          ∧ (Reader.extract env item).error = some "Failed to fetch HTML")
    ∧ (∀ html, env.fetchHtml = Except.ok (some html) →
        env.extractContent html = none →
        (Reader.extract env item).success = false
          ∧ (Reader.extract env item).error = some "Failed to extract content")
    ∧ (∀ html content, env.fetchHtml = Except.ok (some html) →
        env.extractContent html = some content →
        Reader.tooShort (env.toMarkdown content) = true →
        (Reader.extract env item).success = false
          ∧ (Reader.extract env item).error = some "Extracted content too short")
    ∧ (∀ html content e, env.fetchHtml = Except.ok (some html) →
        env.extractContent html = some content →
        Reader.tooShort (env.toMarkdown content) = false →
        env.saveArticle = Except.error e →
        (Reader.extract env item).success = true
          ∧ (Reader.extract env item).error = some e) := by
  refine ⟨?_, ?_, ?_, ?_, ?_, ?_⟩
  · cases hf : env.fetchHtml with
    | error e => simp [Reader.extract, Reader.extractRun, hf, Article.from_item]
    | ok o =>
      cases o with
      | none => simp [Reader.extract, Reader.extractRun, hf, Article.from_item]
      | some html =>
        cases hc : env.extractContent html with
        | none => simp [Reader.extract, Reader.extractRun, hf, hc, Article.from_item]
        | some content =>
          by_cases hts : Reader.tooShort (env.toMarkdown content)
          · simp [Reader.extract, Reader.extractRun, hf, hc, hts, Article.from_item]
          · cases hs : env.saveArticle with
            | ok u =>
              simp [Reader.extract, Reader.extractRun, hf, hc, hts, hs,
                Article.from_item]
            | error e =>
              simp [Reader.extract, Reader.extractRun, hf, hc, hts, hs,
                Article.from_item]
  · intro e hf
    constructor <;>
      simp [Reader.extract, Reader.extractRun, hf, Article.from_item]
  · intro hf
    constructor <;>
      simp [Reader.extract, Reader.extractRun, hf, Article.from_item]
  · intro html hf hc
    constructor <;>
      simp [Reader.extract, Reader.extractRun, hf, hc, Article.from_item]
  · intro html content hf hc hts
    constructor <;>
      simp [Reader.extract, Reader.extractRun, hf, hc, hts, Article.from_item]
  · intro html content e hf hc hts hs
    constructor <;>
      simp [Reader.extract, Reader.extractRun, hf, hc, hts, hs, Article.from_item]

set_option maxRecDepth 40000 in
/-- Counterexample for C8 as stated: when the save stage raises after the
content stages succeeded, extract returns success = true together with the
recorded error, not success = false as the claim requires for every stage
failure. -/
theorem c8_counterexample :
    c8env.saveArticle = Except.error "disk full"
    ∧ (Reader.extract c8env c8item).success = true
    ∧ (Reader.extract c8env c8item).error = some "disk full" := by
  refine ⟨rfl, by decide, by decide⟩

/-- Witness for C8 at concrete inputs: a too-short conversion is marked
failed with the dedicated reason. -/
theorem c8_witness :
    (Reader.extract c8envShort c8item).success = false
    ∧ (Reader.extract c8envShort c8item).error
      = some "Extracted content too short" :=
  (c8_extract_error_handling c8envShort c8item).2.2.2.2.1
    "<html><p>page</p></html>" "<p>body</p>" rfl rfl (by decide)

/-- C9 (amended): when saving completes, a successfully extracted item gets
exactly two durable artifacts — the flow-text document and the metadata
sidecar, both keyed by the slug — while a FAILED extraction writes nothing
(the save step is only reached on the success path). -/
theorem c9_artifact_on_success_only (env : Reader.ExtractEnv) (item : Item) :
    env.saveArticle = Except.ok () →
    ((Reader.extract env item).success = true →
      Reader.extractWrites env item =
        [((Reader.extract env item).slug ++ ".md",
          Reader.FileContent.text (Reader.extract env item).extracted_text),
         ((Reader.extract env item).slug ++ ".meta.json",
          Reader.FileContent.meta (Reader.extract env item).url
            (Reader.extract env item).title (Reader.extract env item).slug
            (Reader.extract env item).word_count
            (Reader.extract env item).extracted_at
            (Reader.extract env item).success
            (Reader.extract env item).error)])
    ∧ ((Reader.extract env item).success = false →
        Reader.extractWrites env item = []) := by
  intro hsave
  cases hf : env.fetchHtml with
  | error e =>
    constructor <;>
      simp [Reader.extract, Reader.extractRun, Reader.extractWrites, hf,
        Article.from_item]
  | ok o =>
    cases o with
    | none =>
      constructor <;>
        simp [Reader.extract, Reader.extractRun, Reader.extractWrites, hf,
          Article.from_item]
    | some html =>
      cases hc : env.extractContent html with
      | none =>
        constructor <;>
          simp [Reader.extract, Reader.extractRun, Reader.extractWrites, hf, hc,
            Article.from_item]
      | some content =>
        by_cases hts : Reader.tooShort (env.toMarkdown content)
        · constructor <;>
            simp [Reader.extract, Reader.extractRun, Reader.extractWrites, hf,
              hc, hts, Article.from_item]
        · constructor <;>
            simp [Reader.extract, Reader.extractRun, Reader.extractWrites, hf,
              hc, hts, hsave, Article.from_item]

/-- Counterexample for C9 as stated: an unsuccessfully-extracted item gets NO
flow-text document and no metadata sidecar — nothing is written for it, the
artifact exists only for successful extractions. -/
theorem c9_counterexample :
    (Reader.extract c9envFail c9item).success = false
    ∧ Reader.extractWrites c9envFail c9item = [] := by
  refine ⟨by decide, by decide⟩

set_option maxRecDepth 40000 in
/-- Witness for C9 at concrete inputs: a successful extraction writes the
flow-text document and the metadata sidecar, keyed by the slug. -/
theorem c9_witness :
    Reader.extractWrites c9envGood c9item =
      [((Reader.extract c9envGood c9item).slug ++ ".md",
        Reader.FileContent.text (Reader.extract c9envGood c9item).extracted_text),
       ((Reader.extract c9envGood c9item).slug ++ ".meta.json",
        Reader.FileContent.meta (Reader.extract c9envGood c9item).url
          (Reader.extract c9envGood c9item).title
          (Reader.extract c9envGood c9item).slug
          (Reader.extract c9envGood c9item).word_count
          (Reader.extract c9envGood c9item).extracted_at
          (Reader.extract c9envGood c9item).success
          (Reader.extract c9envGood c9item).error)] :=
  (c9_artifact_on_success_only c9envGood c9item rfl).1 (by decide)

theorem wordLE_length (w : Nat) : (wordLE w).length = 4 := rfl

theorem md5Digest_length (msg : List Nat) : (md5Digest msg).length = 16 := by
  unfold md5Digest
  simp [List.length_append, wordLE_length]

theorem md5HexChars_length (msg : List Nat) : (md5HexChars msg).length = 32 := by
  unfold md5HexChars
  have haux : ∀ l : List Nat,
      (l.flatMap fun b => [hexDigit (b / 16), hexDigit (b % 16)]).length
        = 2 * l.length := by
    intro l
    induction l with
    | nil => rfl
    | cons b rest ih =>
      simp only [List.flatMap_cons, List.length_append, ih, List.length_cons,
        List.length_nil]
      omega
  rw [haux, md5Digest_length]

theorem url_hash_length (i : Item) : i.url_hash.length = 12 := by
  unfold Item.url_hash
  show ((md5HexChars (utf8Bytes i.url)).take 12).length = 12
  rw [List.length_take, md5HexChars_length]
  omega

/-- C10 (amended): the slug Article.from_item derives is always non-empty —
when the cleaned URL path is empty it falls back to the 12-hex-character URL
fingerprint — but distinct URLs need NOT yield distinct slugs: URLs whose
cleaned paths coincide (for example equal paths on different hosts) produce
the same slug, so filename uniqueness is not guaranteed by the derivation. -/
theorem c10_slug_nonempty_with_fallback (item : Item) :
    (Article.from_item item).slug ≠ ""
    ∧ (slugCandidate item.url = [] →
        (Article.from_item item).slug = item.url_hash) := by
  constructor
  · unfold Article.from_item
    dsimp only
    by_cases h : slugCandidate item.url = []
    · rw [if_pos h]
      intro heq
      have hdata : item.url_hash.data = [] := by
        rw [heq]
      have := url_hash_length item
      rw [String.length, hdata] at this
      simp at this
    · rw [if_neg h]
      intro heq
      exact h (by simpa using congrArg String.data heq)
  · intro h
    unfold Article.from_item
    dsimp only
    rw [if_pos h]

/-- Counterexample for C10 as stated: two items with distinct URLs — equal
paths on different hosts — receive the same slug from Article.from_item. -/
theorem c10_counterexample :
    (sampleItem "a1" "Title one long" "https://alpha.example/news" none "" "g").url
      ≠ (sampleItem "b1" "Title two long" "https://beta.example/news" none "" "g").url
    ∧ (Article.from_item
        (sampleItem "a1" "Title one long" "https://alpha.example/news" none "" "g")).slug
      = (Article.from_item
        (sampleItem "b1" "Title two long" "https://beta.example/news" none "" "g")).slug := by
  refine ⟨by decide, by decide⟩

/-- Witness for C10 at concrete inputs: a URL whose path yields no usable
slug falls back to the URL fingerprint. -/
theorem c10_witness :
    (Article.from_item
        (sampleItem "r1" "Title root long" "https://x.example/" none "" "g")).slug
      = (sampleItem "r1" "Title root long" "https://x.example/" none "" "g").url_hash :=
  (c10_slug_nonempty_with_fallback
      (sampleItem "r1" "Title root long" "https://x.example/" none "" "g")).2
    (by decide)

example : containsSub "ai".data "the ai news".data = true := by decide
example : containsSub "ai".data "the news".data = false := by decide
set_option maxRecDepth 20000 in
example : String.mk (md5HexChars (utf8Bytes "abc")) =
    "900150983cd24fb0d6963f7d28e17f72" := by decide
set_option maxRecDepth 20000 in
example : String.mk (md5HexChars (utf8Bytes "")) =
    "d41d8cd98f00b204e9800998ecf8427e" := by decide
example : urlPath "https://alpha.example/news?q=1#top" = "/news".data := by decide
example : slugCandidate "https://alpha.example/a/B c9!" = "a-bc9".data := by decide
example : slugCandidate "https://alpha.example/" = [] := by decide
example : pyWordCount " one  two three " = 3 := by decide
example :
    Collector.deduplicate
      [{ id := "a", title := "t1", url := "u", published_at := none,
         source := "s", snippet := "", tags := [], group := "g",
         status := ItemStatus.pending },
       { id := "a", title := "t2", url := "u", published_at := none,
         source := "s", snippet := "", tags := [], group := "g",
         status := ItemStatus.pending }] =
      [{ id := "a", title := "t1", url := "u", published_at := none,
         source := "s", snippet := "", tags := [], group := "g",
         status := ItemStatus.pending }] := by decide
